import Mathlib

/-!
Verification of the trace-to-operation-log builder of the zkevm-circuits
repository, shallowly embedded from
`src/bus-mapping/src/evm/opcodes.rs` and `src/prover/src/utils.rs`.

Machine integers of the source (u64, U256 words, u32 RNG words) are
modelled as `Nat`, with explicit `% 2 ^ 32` masking where the source
wraps (the xorshift generator) and with explicit hypotheses marking the
domains on which the source's checked subtractions do not underflow.
Stateful code is modelled by explicit state passing; fallible code
returns `Except`; panics (`unimplemented!`, `unreachable!`) are modelled
as explicit outcome constructors distinct from typed `Err` returns.

Definitions that embed code of this repository living outside the given
`src/` snapshot (state-database accessors, `eth_types` helpers, the fee
oracle constants) carry a doc comment starting with
`Modelled from the spec:` naming what is missing.
-/

/-! ## Operation-log data model (spec section 3, "Operation") -/

/-- Direction tag of one bus operation: READ or WRITE. -/
inductive RWDir where
  | read
  | write
deriving DecidableEq, Repr

/-- Account fields touched by the builder (operation::AccountField). -/
inductive AccountField where
  | nonce
  | balance
  | codeHash
  | keccakCodeHash
deriving DecidableEq, Repr

/-- Call-context fields touched by begin/end transaction bookkeeping
(operation::CallContextField, restricted to the fields the embedded
code writes or reads). -/
inductive CallContextField where
  | txId
  | rwCounterEndOfReversion
  | isPersistent
  | isSuccess
  | l1Fee
deriving DecidableEq, Repr

/-- Transaction-receipt fields (operation::TxReceiptField). -/
inductive TxReceiptField where
  | postStateOrStatus
  | logLength
  | cumulativeGasUsed
deriving DecidableEq, Repr

/-- One typed bus operation, the payload of a log entry.  Addresses,
slots, hashes and 256-bit words are modelled as `Nat`. -/
inductive BusOp where
  | callContext (callId : Nat) (field : CallContextField) (value : Nat)
  | account (address : Nat) (field : AccountField) (value valuePrev : Nat)
  | storage (address slot value valuePrev txId committed : Nat)
  | txAccessList (txId address : Nat) (isWarm isWarmPrev : Bool)
  | txRefund (txId : Nat) (value valuePrev : Nat)
  | txReceipt (txId : Nat) (field : TxReceiptField) (value : Nat)
deriving DecidableEq, Repr

/-- One appended operation-log entry: a direction, a typed operation and
whether it was pushed through the reversible-push primitive
(`push_op_reversible` / spec section 4.1). -/
structure LogEntry where
  rw : RWDir
  op : BusOp
  reversible : Bool
deriving DecidableEq, Repr

/-! ## State-database accounts (external ledger, spec section 6) -/

/-- Modelled from the spec: the state database's `Account` record
(`state_db` is outside `src/`); the builder reads its nonce, balance,
code hash and (scroll feature) keccak code hash. -/
structure Account where
  balance : Nat
  nonce : Nat
  codeHash : Nat
  keccakCodeHash : Nat
deriving DecidableEq, Repr

instance : Inhabited Account := ⟨⟨0, 0, 0, 0⟩⟩

/-- Modelled from the spec: `Account::is_empty` of the state database
(outside `src/`); per the source comment at `opcodes.rs` line 647 an
account is empty when its code hash and nonce are zero, and the spec
speaks of creating empty accounts "with zero nonce/balance". -/
def Account.is_empty (a : Account) : Bool :=
  a.nonce == 0 && a.balance == 0 && a.codeHash == 0

/-- Modelled from the spec: `Account::code_hash_read` (outside `src/`),
the code-hash value reported by an account read: zero for an account
that does not really exist, the stored code hash otherwise. -/
def Account.code_hash_read (a : Account) : Nat :=
  if a.is_empty then 0 else a.codeHash

/-- Modelled from the spec: `StateDB::get_account` (outside `src/`)
returns a found-flag and the account, defaulting to the empty account;
the database is modelled as an association list. -/
def getAccount : List (Nat × Account) → Nat → Bool × Account
  | [], _ => (false, default)
  | p :: rest, addr => if p.1 == addr then (true, p.2) else getAccount rest addr

/-- Modelled from the spec: updating one account's balance in the state
database (the ledger mutation performed by a balance `account_write`). -/
def setAccountBalance : List (Nat × Account) → Nat → Nat → List (Nat × Account)
  | [], _, _ => []
  | p :: rest, addr, bal =>
    if p.1 == addr then (p.1, { p.2 with balance := bal }) :: rest
    else p :: setAccountBalance rest addr bal

/-! ## Setup-parameter loading (`src/prover/src/utils.rs`, `load_params`) -/

/-- The serde formats accepted by `load_params` (halo2's `SerdeFormat`). -/
inductive SerdeFormat where
  | processed
  | rawBytes
  | rawBytesUnchecked
deriving DecidableEq, Repr

/-- `DEFAULT_SERDE_FORMAT` from `utils.rs` line 41. -/
def DEFAULT_SERDE_FORMAT : SerdeFormat := SerdeFormat.rawBytesUnchecked

/-- Per-G1-point byte length chosen by `load_params` (`utils.rs` lines
77-80): 32 bytes for the Processed format, 64 for the raw formats. -/
def g1_bytes_len : SerdeFormat → Nat
  | SerdeFormat.processed => 32
  | SerdeFormat.rawBytes => 64
  | SerdeFormat.rawBytesUnchecked => 64

/-- The expected params-file length computed by `load_params`
(`utils.rs` lines 72-82): 4 length bytes, `2 * 2 ^ degree` G1 points and
2 G2 points of twice the G1 width. -/
def expected_params_len (degree : Nat) (fmt : SerdeFormat) : Nat :=
  let g1_num := 2 * 2 ^ degree
  let g2_num := 2
  4 + g1_num * g1_bytes_len fmt + g2_num * (2 * g1_bytes_len fmt)

/-- Outcome of the length gate in `load_params`: either the early
`bail!` on a length mismatch, or proceeding to `ParamsKZG::read_custom`
with the chosen format. -/
inductive LoadParamsOutcome where
  | lengthError
  | deserializeAttempted (fmt : SerdeFormat)
deriving DecidableEq, Repr

/-- The post-open stage of `load_params` (`utils.rs` lines 72-87): pick
the serde format (defaulting to `DEFAULT_SERDE_FORMAT`), compare the
file size against the expected length, and only on equality attempt
deserialization. -/
def load_params_length_gate (fileSize degree : Nat) (serdeFmt : Option SerdeFormat) :
    LoadParamsOutcome :=
  if fileSize ≠ expected_params_len degree (serdeFmt.getD DEFAULT_SERDE_FORMAT) then
    LoadParamsOutcome.lengthError
  else LoadParamsOutcome.deserializeAttempted (serdeFmt.getD DEFAULT_SERDE_FORMAT)

/-- The length formula exactly as the claim states it:
`4 + 2 * 2^degree * L + 2 * (2 * L)`. -/
def claim_expected_len (degree L : Nat) : Nat :=
  4 + 2 * 2 ^ degree * L + 2 * (2 * L)

/-! ## Deterministic RNG (`src/prover/src/utils.rs`, `gen_rng`) -/

/-- State of rand_xorshift's `XorShiftRng`: four u32 words. -/
structure XorShiftRngState where
  x : Nat
  y : Nat
  z : Nat
  w : Nat
deriving DecidableEq, Repr

/-- Four little-endian u32 words read from a 16-byte seed
(rand_xorshift's `le::read_u32_into`). -/
def seedWordsLE (seed : List Nat) : List Nat :=
  [seed.getD 0 0 + 2 ^ 8 * seed.getD 1 0 + 2 ^ 16 * seed.getD 2 0 + 2 ^ 24 * seed.getD 3 0,
   seed.getD 4 0 + 2 ^ 8 * seed.getD 5 0 + 2 ^ 16 * seed.getD 6 0 + 2 ^ 24 * seed.getD 7 0,
   seed.getD 8 0 + 2 ^ 8 * seed.getD 9 0 + 2 ^ 16 * seed.getD 10 0 + 2 ^ 24 * seed.getD 11 0,
   seed.getD 12 0 + 2 ^ 8 * seed.getD 13 0 + 2 ^ 16 * seed.getD 14 0 + 2 ^ 24 * seed.getD 15 0]

/-- `XorShiftRng::from_seed` of the rand_xorshift crate: read four
little-endian u32 words; an all-zero seed (which xorshift cannot use)
is replaced by the crate's preset constant `0xBAD5EED` in every word. -/
def xorshift_from_seed (seed : List Nat) : XorShiftRngState :=
  let s := seedWordsLE seed
  if s.all (fun v => v == 0) then ⟨0xBAD5EED, 0xBAD5EED, 0xBAD5EED, 0xBAD5EED⟩
  else ⟨s.getD 0 0, s.getD 1 0, s.getD 2 0, s.getD 3 0⟩

/-- One step of the xorshift128 generator (`XorShiftRng::next_u32`),
with u32 wrapping made explicit via `% 2 ^ 32`. -/
def xorshift_next_u32 (st : XorShiftRngState) : Nat × XorShiftRngState :=
  let x := st.x
  let t := Nat.xor x ((x <<< 11) % 2 ^ 32)
  let wOld := st.w
  let wNew := Nat.xor (Nat.xor wOld (wOld >>> 19)) (Nat.xor t (t >>> 8))
  (wNew, ⟨st.y, st.z, wOld, wNew⟩)

/-- The first `n` outputs of the generator from a given state. -/
def xorshift_stream (st : XorShiftRngState) : Nat → List Nat
  | 0 => []
  | n + 1 =>
    let (v, st2) := xorshift_next_u32 st
    v :: xorshift_stream st2 n

/-- The seed literal `[0u8; 16]` of `gen_rng` (`utils.rs` line 271). -/
def gen_rng_seed : List Nat := List.replicate 16 0

/-- `gen_rng` (`utils.rs` lines 270-273).  The ambient entropy the
process could have consulted is modelled as an explicit parameter; the
source never reads any entropy, so the parameter is unused and the
generator is always seeded from the fixed all-zero 16-byte seed. -/
def gen_rng (_entropy : Nat → Nat) : XorShiftRngState :=
  xorshift_from_seed gen_rng_seed

/-! ## Opcode identifiers (`eth_types::evm_types::OpcodeId`) -/

/-- Modelled from the spec: the opcode-identifier enum of `eth_types`
(outside `src/`), restricted to the identifiers the dispatch table of
`opcodes.rs` matches on, the PUSH1..PUSH32 immediate-literal family, the
transient-storage opcodes (which have no arm and hit the catch-all) and
the byte-parameterised invalid opcode. -/
inductive OpcodeId where
  | STOP | ADD | MUL | SUB | DIV | SDIV | MOD | SMOD | ADDMOD | MULMOD | SIGNEXTEND
  | LT | GT | SLT | SGT | EQ | ISZERO | AND | OR | XOR | NOT | BYTE | SHL | SHR | SAR
  | SHA3 | ADDRESS | BALANCE | ORIGIN | CALLER | CALLVALUE | CALLDATASIZE
  | CALLDATALOAD | CALLDATACOPY | GASPRICE | CODECOPY | CODESIZE | EXP
  | EXTCODESIZE | EXTCODECOPY | RETURNDATASIZE | RETURNDATACOPY | EXTCODEHASH
  | BLOCKHASH | COINBASE | TIMESTAMP | NUMBER | DIFFICULTY | GASLIMIT | CHAINID
  | SELFBALANCE | BASEFEE | POP | MLOAD | MSTORE | MSTORE8 | SLOAD | SSTORE
  | JUMP | JUMPI | PC | MSIZE | GAS | JUMPDEST | TLOAD | TSTORE
  | PUSH0
  | PUSH1 | PUSH2 | PUSH3 | PUSH4 | PUSH5 | PUSH6 | PUSH7 | PUSH8
  | PUSH9 | PUSH10 | PUSH11 | PUSH12 | PUSH13 | PUSH14 | PUSH15 | PUSH16
  | PUSH17 | PUSH18 | PUSH19 | PUSH20 | PUSH21 | PUSH22 | PUSH23 | PUSH24
  | PUSH25 | PUSH26 | PUSH27 | PUSH28 | PUSH29 | PUSH30 | PUSH31 | PUSH32
  | DUP1 | DUP2 | DUP3 | DUP4 | DUP5 | DUP6 | DUP7 | DUP8
  | DUP9 | DUP10 | DUP11 | DUP12 | DUP13 | DUP14 | DUP15 | DUP16
  | SWAP1 | SWAP2 | SWAP3 | SWAP4 | SWAP5 | SWAP6 | SWAP7 | SWAP8
  | SWAP9 | SWAP10 | SWAP11 | SWAP12 | SWAP13 | SWAP14 | SWAP15 | SWAP16
  | LOG0 | LOG1 | LOG2 | LOG3 | LOG4
  | CALL | CALLCODE | DELEGATECALL | STATICCALL | CREATE | CREATE2
  | RETURN | REVERT | INVALID (byte : Nat) | SELFDESTRUCT

/-- Modelled from the spec: `OpcodeId::is_push_with_data` of `eth_types`
(outside `src/`): the "PUSH-with-data" family PUSH1..PUSH32 of opcodes
that push an immediate literal; PUSH0 pushes no immediate and is not a
member. -/
def OpcodeId.is_push_with_data : OpcodeId → Bool
  | .PUSH1 | .PUSH2 | .PUSH3 | .PUSH4 | .PUSH5 | .PUSH6 | .PUSH7 | .PUSH8
  | .PUSH9 | .PUSH10 | .PUSH11 | .PUSH12 | .PUSH13 | .PUSH14 | .PUSH15 | .PUSH16
  | .PUSH17 | .PUSH18 | .PUSH19 | .PUSH20 | .PUSH21 | .PUSH22 | .PUSH23 | .PUSH24
  | .PUSH25 | .PUSH26 | .PUSH27 | .PUSH28 | .PUSH29 | .PUSH30 | .PUSH31 | .PUSH32 => true
  | _ => false

/-- Modelled from the spec: `OpcodeId::is_call_or_create` of `eth_types`
(outside `src/`): the CALL-family and CREATE-family opcodes that open a
child call frame. -/
def OpcodeId.is_call_or_create : OpcodeId → Bool
  | .CALL | .CALLCODE | .DELEGATECALL | .STATICCALL | .CREATE | .CREATE2 => true
  | _ => false

/-! ## Handler identities of the dispatch engine (`opcodes.rs`) -/

/-- Identity of a registered `gen_associated_ops` handler.  Each
constructor names one `Opcode` implementation of `opcodes.rs`;
`stackOnly npop npush isErr` is `StackOnlyOpcode::<NPOP, NPUSH, IS_ERR>`,
`callop n` is `CallOpcode::<n>`, `create b` is `Create::<b>`, and
`mstore b` is `Mstore::<b>`. -/
inductive Handler where
  | stackOnly (npop npush : Nat) (isErr : Bool)
  | push0 | stop | dummy | dummySelfDestruct
  | sha3 | address | balance | origin | caller | callvalue
  | calldatasize | calldataload | calldatacopy | gasprice | codecopy | codesize
  | exponentiation | extcodesize | extcodecopy | returndatasize | returndatacopy
  | extcodehash | blockhash | selfbalance | mload | mstore (isMstore8 : Bool)
  | sload | sstore | log | returnRevert
  | dup (n : Nat) | swap (n : Nat)
  | callop (npop : Nat) | create (isCreate2 : Bool)
  | invalidJump | oogCall | oogLog | oogMemoryCopy | oogSloadSstore
  | oogAccountAccess | codeStore | precompileFailed | writeProtection
  | returnDataOutOfBound | creationCode
deriving DecidableEq, Repr

/-- The static dispatch table of `fn_gen_associated_ops` (`opcodes.rs`
lines 170-287): the `match opcode_id` body alone, without the
PUSH-with-data early return that precedes it.  PUSH1..PUSH32 carry no
arm and land on the `_ => Dummy` catch-all, as do the unimplemented
transient-storage opcodes. -/
def static_dispatch_table : OpcodeId → Handler
  | .PUSH0 => .push0
  | .STOP => .stop
  | .ADD => .stackOnly 2 1 false
  | .MUL => .stackOnly 2 1 false
  | .SUB => .stackOnly 2 1 false
  | .DIV => .stackOnly 2 1 false
  | .SDIV => .stackOnly 2 1 false
  | .MOD => .stackOnly 2 1 false
  | .SMOD => .stackOnly 2 1 false
  | .ADDMOD => .stackOnly 3 1 false
  | .MULMOD => .stackOnly 3 1 false
  | .SIGNEXTEND => .stackOnly 2 1 false
  | .LT => .stackOnly 2 1 false
  | .GT => .stackOnly 2 1 false
  | .SLT => .stackOnly 2 1 false
  | .SGT => .stackOnly 2 1 false
  | .EQ => .stackOnly 2 1 false
  | .ISZERO => .stackOnly 1 1 false
  | .AND => .stackOnly 2 1 false
  | .OR => .stackOnly 2 1 false
  | .XOR => .stackOnly 2 1 false
  | .NOT => .stackOnly 1 1 false
  | .BYTE => .stackOnly 2 1 false
  | .SHL => .stackOnly 2 1 false
  | .SHR => .stackOnly 2 1 false
  | .SAR => .stackOnly 2 1 false
  | .SHA3 => .sha3
  | .ADDRESS => .address
  | .BALANCE => .balance
  | .ORIGIN => .origin
  | .CALLER => .caller
  | .CALLVALUE => .callvalue
  | .CALLDATASIZE => .calldatasize
  | .CALLDATALOAD => .calldataload
  | .CALLDATACOPY => .calldatacopy
  | .GASPRICE => .gasprice
  | .CODECOPY => .codecopy
  | .CODESIZE => .codesize
  | .EXP => .exponentiation
  | .EXTCODESIZE => .extcodesize
  | .EXTCODECOPY => .extcodecopy
  | .RETURNDATASIZE => .returndatasize
  | .RETURNDATACOPY => .returndatacopy
  | .EXTCODEHASH => .extcodehash
  | .BLOCKHASH => .blockhash
  | .COINBASE => .stackOnly 0 1 false
  | .TIMESTAMP => .stackOnly 0 1 false
  | .NUMBER => .stackOnly 0 1 false
  | .DIFFICULTY => .stackOnly 0 1 false
  | .GASLIMIT => .stackOnly 0 1 false
  | .CHAINID => .stackOnly 0 1 false
  | .SELFBALANCE => .selfbalance
  | .BASEFEE => .stackOnly 0 1 false
  | .POP => .stackOnly 1 0 false
  | .MLOAD => .mload
  | .MSTORE => .mstore false
  | .MSTORE8 => .mstore true
  | .SLOAD => .sload
  | .SSTORE => .sstore
  | .JUMP => .stackOnly 1 0 false
  | .JUMPI => .stackOnly 2 0 false
  | .PC => .stackOnly 0 1 false
  | .MSIZE => .stackOnly 0 1 false
  | .GAS => .stackOnly 0 1 false
  | .JUMPDEST => .dummy
  | .DUP1 => .dup 1
  | .DUP2 => .dup 2
  | .DUP3 => .dup 3
  | .DUP4 => .dup 4
  | .DUP5 => .dup 5
  | .DUP6 => .dup 6
  | .DUP7 => .dup 7
  | .DUP8 => .dup 8
  | .DUP9 => .dup 9
  | .DUP10 => .dup 10
  | .DUP11 => .dup 11
  | .DUP12 => .dup 12
  | .DUP13 => .dup 13
  | .DUP14 => .dup 14
  | .DUP15 => .dup 15
  | .DUP16 => .dup 16
  | .SWAP1 => .swap 1
  | .SWAP2 => .swap 2
  | .SWAP3 => .swap 3
  | .SWAP4 => .swap 4
  | .SWAP5 => .swap 5
  | .SWAP6 => .swap 6
  | .SWAP7 => .swap 7
  | .SWAP8 => .swap 8
  | .SWAP9 => .swap 9
  | .SWAP10 => .swap 10
  | .SWAP11 => .swap 11
  | .SWAP12 => .swap 12
  | .SWAP13 => .swap 13
  | .SWAP14 => .swap 14
  | .SWAP15 => .swap 15
  | .SWAP16 => .swap 16
  | .LOG0 => .log
  | .LOG1 => .log
  | .LOG2 => .log
  | .LOG3 => .log
  | .LOG4 => .log
  | .CALL => .callop 7
  | .CALLCODE => .callop 7
  | .DELEGATECALL => .callop 6
  | .STATICCALL => .callop 6
  | .CREATE => .create false
  | .CREATE2 => .create true
  | .RETURN => .returnRevert
  | .REVERT => .returnRevert
  | .INVALID _ => .stop
  | .SELFDESTRUCT => .dummySelfDestruct
  | _ => .dummy

/-- Handler selection `fn_gen_associated_ops` (`opcodes.rs` lines
165-288): any PUSH-with-data opcode returns the generic zero-pop,
one-push `StackOnlyOpcode::<0, 1>` before the static table is ever
consulted; every other opcode goes through the table. -/
def fn_gen_associated_ops (opcode_id : OpcodeId) : Handler :=
  if opcode_id.is_push_with_data then Handler.stackOnly 0 1 false
  else static_dispatch_table opcode_id

/-! ## Declared-error taxonomy (`crate::error`, used by `opcodes.rs`) -/

/-- Out-of-gas subtypes (`error::OogError`).  `precompile` and
`selfDestruct` have no registered handler in `opcodes.rs` and fall to
the catch-all `_ => None` arm of the classification match. -/
inductive OogError where
  | call
  | constant
  | create
  | log
  | dynamicMemoryExpansion
  | staticMemoryExpansion
  | exp
  | memoryCopy
  | sha3
  | sloadSstore
  | accountAccess
  | precompile
  | selfDestruct
deriving DecidableEq, Repr

/-- Depth-error subtypes (`error::DepthError`). -/
inductive DepthError where
  | call
  | create
  | create2
deriving DecidableEq, Repr

/-- Insufficient-balance subtypes (`error::InsufficientBalanceError`). -/
inductive InsufficientBalanceError where
  | call
  | create
  | create2
deriving DecidableEq, Repr

/-- Contract-address-collision subtypes
(`error::ContractAddressCollisionError`). -/
inductive ContractAddressCollisionError where
  | create
  | create2
deriving DecidableEq, Repr

/-- Nonce-overflow subtypes (`error::NonceUintOverflowError`). -/
inductive NonceUintOverflowError where
  | create
  | create2
deriving DecidableEq, Repr

/-- Classified execution errors (`error::ExecError`), covering every
kind the classification match of `opcodes.rs` lines 294-374 names. -/
inductive ExecError where
  | invalidJump
  | invalidOpcode
  | depth (sub : DepthError)
  | outOfGas (sub : OogError)
  | stackOverflow
  | stackUnderflow
  | codeStoreOutOfGas
  | maxCodeSizeExceeded
  | insufficientBalance (sub : InsufficientBalanceError)
  | precompileFailed
  | writeProtection
  | returnDataOutOfBounds
  | contractAddressCollision (sub : ContractAddressCollisionError)
  | nonceUintOverflow (sub : NonceUintOverflowError)
  | invalidCreationCode
deriving DecidableEq, Repr

/-- The boolean test performed by
`matches!(exec_error, ExecError::OutOfGas(OogError::Create))` at
`opcodes.rs` line 465. -/
def ExecError.is_oog_create : ExecError → Bool
  | .outOfGas .create => true
  | _ => false

/-- Result of the error-classification engine
`fn_gen_error_state_associated_ops`: a registered specialized handler,
the `_ => None` catch-all (no handler registered), or one of the
`unreachable!` panics guarding opcode-dependent arms. -/
inductive ErrClassification where
  | handler (h : Handler)
  | noHandler
  | unreachablePanic
deriving DecidableEq, Repr

/-- The error-classification engine `fn_gen_error_state_associated_ops`
(`opcodes.rs` lines 290-375), keyed on the declared error and, for the
depth and OOG-create arms, on the failing step's opcode. -/
def fn_gen_error_state_associated_ops (step_op : OpcodeId) (error : ExecError) :
    ErrClassification :=
  match error with
  | .invalidJump => .handler .invalidJump
  | .invalidOpcode => .handler (.stackOnly 0 0 true)
  | .depth .call =>
    match step_op with
    | .CALL | .CALLCODE => .handler (.callop 7)
    | .DELEGATECALL | .STATICCALL => .handler (.callop 6)
    | _ => .unreachablePanic
  | .depth .create => .handler (.create false)
  | .depth .create2 => .handler (.create true)
  | .outOfGas .call => .handler .oogCall
  | .outOfGas .constant => .handler (.stackOnly 0 0 true)
  | .outOfGas .create =>
    match step_op with
    | .CREATE => .handler (.stackOnly 3 0 true)
    | .CREATE2 => .handler (.stackOnly 4 0 true)
    | _ => .unreachablePanic
  | .outOfGas .log => .handler .oogLog
  | .outOfGas .dynamicMemoryExpansion => .handler (.stackOnly 2 0 true)
  | .outOfGas .staticMemoryExpansion => .handler (.stackOnly 1 0 true)
  | .outOfGas .exp => .handler (.stackOnly 2 0 true)
  | .outOfGas .memoryCopy => .handler .oogMemoryCopy
  | .outOfGas .sha3 => .handler (.stackOnly 2 0 true)
  | .outOfGas .sloadSstore => .handler .oogSloadSstore
  | .outOfGas .accountAccess => .handler .oogAccountAccess
  | .stackOverflow => .handler (.stackOnly 0 0 true)
  | .stackUnderflow => .handler (.stackOnly 0 0 true)
  | .codeStoreOutOfGas => .handler .codeStore
  | .maxCodeSizeExceeded => .handler .codeStore
  | .insufficientBalance .call => .handler (.callop 7)
  | .insufficientBalance .create => .handler (.create false)
  | .insufficientBalance .create2 => .handler (.create true)
  | .precompileFailed => .handler .precompileFailed
  | .writeProtection => .handler .writeProtection
  | .returnDataOutOfBounds => .handler .returnDataOutOfBound
  | .contractAddressCollision .create => .handler (.create false)
  | .contractAddressCollision .create2 => .handler (.create true)
  | .nonceUintOverflow .create => .handler (.create false)
  | .nonceUintOverflow .create2 => .handler (.create true)
  | .invalidCreationCode => .handler .creationCode
  | .outOfGas .precompile => .noHandler
  | .outOfGas .selfDestruct => .noHandler

/-! ## Dispatch-engine error path (`gen_associated_ops`, lines 438-475) -/

/-- The slice of one geth trace step the error path inspects. -/
structure GethStep where
  op : OpcodeId
  pc : Nat

/-- One produced execution step; only the fields the error path touches
are modelled.  `error` is the optional classified error. -/
structure ExecStep where
  pc : Nat
  gasLeft : Nat
  error : Option ExecError

/-- Modelled from the spec: the child call frame produced by
`CircuitInputStateRef::parse_call` (outside `src/`) from the failing
step; the claims only require that the frame parsed from this very step
is what gets pushed. -/
structure ParsedCall where
  step : GethStep

/-- `parse_call` applied to the failing step (`opcodes.rs` line 467). -/
def parse_call (g : GethStep) : ParsedCall := ⟨g⟩

/-- What the no-handler fallback of `gen_associated_ops` does: the frame
pushed onto the call stack (if any), the `need_restore` argument handed
to `handle_return`, and the returned `ExecStep`s. -/
structure FallbackAction where
  pushedCall : Option ParsedCall
  needRestore : Bool
  steps : List ExecStep

/-- Result of the error path of `gen_associated_ops`: delegation to a
registered specialized handler, the two-path fallback, or the panic
propagated out of an `unreachable!` classification arm. -/
inductive ErrorPathResult where
  | specialized (h : Handler)
  | fallback (a : FallbackAction)
  | panicked

/-- The error path of the dispatch engine `gen_associated_ops`
(`opcodes.rs` lines 438-475): tag the fresh step with the classified
error; if classification yields a handler, delegate to it; otherwise,
if the failing opcode is call-or-create and the error is not
out-of-gas-on-create, parse and push the child frame and call
`handle_return` with `need_restore = false`, else call `handle_return`
with `need_restore = true` without pushing, returning the single
error-tagged step. -/
def gen_associated_ops_error_path (g : GethStep) (exec_error : ExecError)
    (base : ExecStep) : ErrorPathResult :=
  let exec_step : ExecStep := { base with error := some exec_error }
  match fn_gen_error_state_associated_ops g.op exec_error with
  | .handler h => .specialized h
  | .unreachablePanic => .panicked
  | .noHandler =>
    if g.op.is_call_or_create && !exec_error.is_oog_create then
      .fallback ⟨some (parse_call g), false, [exec_step]⟩
    else
      .fallback ⟨none, true, [exec_step]⟩

/-! ## Begin-Tx: fee-oracle reads vs L1-message caller check (C4) -/

/-- Modelled from the spec: the fee-oracle predeploy address
(`l2_predeployed::l1_gas_price_oracle::ADDRESS`, outside `src/`). -/
def l1_gas_price_oracle_ADDRESS : Nat := 0x5300000000000000000000000000000000000002

/-- Modelled from the spec: the oracle's base-fee storage slot
(`l1_gas_price_oracle::BASE_FEE_SLOT`, outside `src/`). -/
def l1_gas_price_oracle_BASE_FEE_SLOT : Nat := 1

/-- Modelled from the spec: the oracle's overhead storage slot
(`l1_gas_price_oracle::OVERHEAD_SLOT`, outside `src/`). -/
def l1_gas_price_oracle_OVERHEAD_SLOT : Nat := 2

/-- Modelled from the spec: the oracle's scalar storage slot
(`l1_gas_price_oracle::SCALAR_SLOT`, outside `src/`). -/
def l1_gas_price_oracle_SCALAR_SLOT : Nat := 3

/-- The begin-transaction inputs the embedded first phase reads. -/
structure BeginTxInput where
  txId : Nat
  isL1Msg : Bool
  callerAddress : Nat
  accounts : List (Nat × Account)
  l1FeeBaseFee : Nat
  l1FeeOverhead : Nat
  l1FeeScalar : Nat
  l1FeeCommittedBaseFee : Nat
  l1FeeCommittedOverhead : Nat
  l1FeeCommittedScalar : Nat
  scrollFeature : Bool
deriving DecidableEq, Repr

/-- `gen_tx_l1_fee_ops` (`opcodes.rs` lines 1014-1065): three READ
storage operations at the fee-oracle address for the base-fee, overhead
and scalar slots. -/
def gen_tx_l1_fee_ops (s : BeginTxInput) : List LogEntry :=
  [⟨.read, .storage l1_gas_price_oracle_ADDRESS l1_gas_price_oracle_BASE_FEE_SLOT
      s.l1FeeBaseFee s.l1FeeBaseFee s.txId s.l1FeeCommittedBaseFee, false⟩,
   ⟨.read, .storage l1_gas_price_oracle_ADDRESS l1_gas_price_oracle_OVERHEAD_SLOT
      s.l1FeeOverhead s.l1FeeOverhead s.txId s.l1FeeCommittedOverhead, false⟩,
   ⟨.read, .storage l1_gas_price_oracle_ADDRESS l1_gas_price_oracle_SCALAR_SLOT
      s.l1FeeScalar s.l1FeeScalar s.txId s.l1FeeCommittedScalar, false⟩]

/-- The first log activity of `gen_begin_tx_ops` (`opcodes.rs` lines
490-532): for an L1-message transaction, read the caller's code hash
and — only when the caller account is empty — create it with
non-reversible account writes whose recorded previous value is zero
(the keccak-code-hash write exists only under the scroll feature);
otherwise emit the three fee-oracle storage reads. -/
def begin_tx_fee_phase (s : BeginTxInput) : List LogEntry :=
  if s.isL1Msg then
    let callerAcc := (getAccount s.accounts s.callerAddress).2
    ⟨.read, .account s.callerAddress .codeHash callerAcc.code_hash_read
        callerAcc.code_hash_read, false⟩ ::
    (if callerAcc.is_empty then
      ⟨.write, .account s.callerAddress .codeHash callerAcc.codeHash 0, false⟩ ::
      (if s.scrollFeature then
        [⟨.write, .account s.callerAddress .keccakCodeHash callerAcc.keccakCodeHash 0, false⟩]
      else [])
    else [])
  else gen_tx_l1_fee_ops s

/-- Whether an entry is a non-reversible account WRITE at `addr` whose
recorded previous value is zero (the shape of the account-creation
writes of the L1-message branch). -/
def isAccountCreationWrite (addr : Nat) (en : LogEntry) : Bool :=
  match en with
  | ⟨RWDir.write, BusOp.account a _ _ vp, rev⟩ => a == addr && vp == 0 && !rev
  | _ => false

/-! ## Begin-Tx: deployment-collision check (C5) -/

/-- Modelled from the spec: `CodeDB::empty_code_hash` (outside `src/`),
the hash of the empty bytecode — a fixed nonzero constant. -/
def EMPTY_CODE_HASH : Nat :=
  0xc5d2460186f7233c927e7db2dcc703c0e500b653ca82273b7bfad8045d85a470

/-- The panic raised by the `unimplemented!` macro at `opcodes.rs` lines
675-679, carrying the offending address and account of its format
message. -/
inductive BeginTxPanic where
  | deploymentCollision (address : Nat) (account : Account)
deriving DecidableEq, Repr

/-- Typed builder errors (`crate::Error`) that `gen_begin_tx_ops` and
`gen_end_tx_ops` can return through `Result`. -/
inductive BuilderError where
  | accountNotFound (address : Nat)
deriving DecidableEq, Repr

/-- Outcome of the collision check inside `gen_begin_tx_ops`: the
builder proceeds, returns a typed `Err` value, or aborts through a
panicking macro.  The typed-error constructor is present because the
surrounding function returns `Result<_, Error>`, so a typed error is
the outcome the spec's section 7 promises for fatal conditions. -/
inductive BeginTxOutcome where
  | proceeded
  | typedError (e : BuilderError)
  | panicked (p : BeginTxPanic)
deriving DecidableEq, Repr

/-- Whether an outcome is a typed error value. -/
def BeginTxOutcome.isTypedError : BeginTxOutcome → Bool
  | .typedError _ => true
  | _ => false

/-- The deployment-collision check of `gen_begin_tx_ops` (`opcodes.rs`
lines 643-680): for a creation transaction whose target has a code hash
that is neither zero nor the empty-code hash, or a nonzero nonce, the
builder aborts through `unimplemented!`; otherwise it proceeds. -/
def begin_tx_collision_check (isCreate : Bool) (accounts : List (Nat × Account))
    (calleeAddress : Nat) : BeginTxOutcome :=
  let calleeAccount := (getAccount accounts calleeAddress).2
  let calleeExists := !calleeAccount.is_empty
  let accountCodeHash := if calleeExists then calleeAccount.codeHash else 0
  let accountCodeHashIsEmptyOrZero :=
    accountCodeHash == 0 || accountCodeHash == EMPTY_CODE_HASH
  if isCreate && (!accountCodeHashIsEmptyOrZero || !(calleeAccount.nonce == 0)) then
    .panicked (.deploymentCollision calleeAddress calleeAccount)
  else .proceeded

/-! ## Begin-Tx: access-list warming (C7) -/

/-- Modelled from the spec: `StateDB::add_account_to_access_list`
(outside `src/`; interface `add_to_access_list(addr) -> was_cold` in
spec section 6): returns whether the address was cold and inserts it;
the access list is modelled as the list of warm addresses. -/
def add_account_to_access_list (al : List Nat) (addr : Nat) : Bool × List Nat :=
  if al.contains addr then (false, al) else (true, addr :: al)

/-- One warming step of `gen_begin_tx_ops` (`opcodes.rs` lines 584-594
and 610-619): warm the address in the ledger, derive
`is_warm_prev = !was_cold`, and append a reversible access-list WRITE
with `is_warm = true` (`tx_accesslist_account_write` is outside `src/`;
spec section 4.6 (e) makes each such write reversible). -/
def warm_address (txId : Nat) (acc : List Nat × List LogEntry) (addr : Nat) :
    List Nat × List LogEntry :=
  let (wasCold, al2) := add_account_to_access_list acc.1 addr
  (al2, acc.2 ++ [⟨.write, .txAccessList txId addr true (!wasCold), true⟩])

/-- The warmed-address sequence of Begin-Tx: the nine reserved
precompile addresses 1..=9, then the caller and callee, then — under
the shanghai feature — the block's coinbase. -/
def begin_tx_warm_addresses (caller callee coinbase : Nat) (shanghai : Bool) :
    List Nat :=
  (List.range 9).map (fun i => i + 1) ++ [caller, callee] ++
    (if shanghai then [coinbase] else [])

/-- The access-list warming loops of `gen_begin_tx_ops`, folded over
the warmed-address sequence starting from the current access list. -/
def begin_tx_warming (txId caller callee coinbase : Nat) (shanghai : Bool)
    (al0 : List Nat) : List Nat × List LogEntry :=
  (begin_tx_warm_addresses caller callee coinbase shanghai).foldl
    (warm_address txId) (al0, [])

/-- Whether an entry is a reversible access-list WRITE with
`is_warm = true` (the shape every warming operation must have). -/
def isReversibleAccessWrite (en : LogEntry) : Bool :=
  match en with
  | ⟨RWDir.write, BusOp.txAccessList _ _ isWarm _, rev⟩ => isWarm && rev
  | _ => false

/-! ## End-Tx bookkeeping (`gen_end_tx_ops`, lines 855-1010) -/

/-- Modelled from the spec: `MAX_REFUND_QUOTIENT_OF_GAS_USED` of
`eth_types` (outside `src/`), the EIP-3529 quotient 5 — the spec's
"gas_used / 5". -/
def MAX_REFUND_QUOTIENT_OF_GAS_USED : Nat := 5

/-- The effective refund computed at `opcodes.rs` lines 889-890:
the accumulated refund counter capped at gas_used / 5, where gas_used
is the transaction gas limit minus the gas left at End-Tx. -/
def effective_refund (refund gas gasLeft : Nat) : Nat :=
  min refund ((gas - gasLeft) / MAX_REFUND_QUOTIENT_OF_GAS_USED)

/-- The inputs read by `gen_end_tx_ops`: transaction metadata, the root
call, the ledger snapshot, and the block context. -/
structure EndTxInput where
  txId : Nat
  callId : Nat
  isPersistent : Bool
  callerAddress : Nat
  gas : Nat
  gasPrice : Nat
  l1Fee : Nat
  isL1Msg : Bool
  gasLeft : Nat
  logId : Nat
  refund : Nat
  accounts : List (Nat × Account)
  baseFee : Nat
  coinbase : Nat
  cumulativeGasUsed : Nat
  isLastTx : Bool
  rwc : Nat
deriving DecidableEq, Repr

/-- The caller balance written back by End-Tx (`opcodes.rs` lines
895-897): previous balance plus `gas_price * (gas_left + refund)`. -/
def end_tx_caller_balance (s : EndTxInput) (callerAccount : Account) : Nat :=
  callerAccount.balance +
    s.gasPrice * (s.gasLeft + effective_refund s.refund s.gas s.gasLeft)

/-- The ledger as seen by the coinbase lookup: for a non-L1 transaction
the caller's refund write has already updated the caller's balance. -/
def end_tx_sdb_after_refund (s : EndTxInput) (callerAccount : Account) :
    List (Nat × Account) :=
  if s.isL1Msg then s.accounts
  else setAccountBalance s.accounts s.callerAddress (end_tx_caller_balance s callerAccount)

/-- Modelled from the spec: `CircuitInputStateRef::transfer_to` (outside
`src/`), the ledger adapter's transfer primitive — a balance WRITE for
the receiver recording the previous balance and the increased value
(spec section 4.6: "transfer the reward to the fee recipient"). -/
def transfer_to (address : Nat) (receiverAccount : Account) (value : Nat)
    (reversible : Bool) : List LogEntry :=
  [⟨.write, .account address .balance (receiverAccount.balance + value)
      receiverAccount.balance, reversible⟩]

/-- What `gen_end_tx_ops` produces: the appended log entries and the
updated block-level cumulative gas counter. -/
structure EndTxResult where
  ops : List LogEntry
  cumulativeGasUsed : Nat
deriving DecidableEq, Repr

/-- `gen_end_tx_ops` (`opcodes.rs` lines 855-1010): context reads,
refund read, effective-refund credit to the caller (skipped for L1
messages), coinbase reward computation and transfer (zero and skipped
for L1 messages), receipt writes, cumulative-gas chaining from the
previous transaction (read only when this is not the first transaction)
and the next transaction's TxId pre-write. -/
def gen_end_tx_ops (s : EndTxInput) : Except BuilderError EndTxResult :=
  let ops0 : List LogEntry :=
    [⟨.read, .callContext s.callId .txId s.txId, false⟩,
     ⟨.read, .callContext s.callId .isPersistent s.isPersistent.toNat, false⟩,
     ⟨.read, .callContext s.callId .l1Fee s.l1Fee, false⟩,
     ⟨.read, .txRefund s.txId s.refund s.refund, false⟩]
  match getAccount s.accounts s.callerAddress with
  | (false, _) => .error (.accountNotFound s.callerAddress)
  | (true, callerAccount) =>
    let callerBalancePrev := callerAccount.balance
    let callerBalance := end_tx_caller_balance s callerAccount
    let ops1 := if !s.isL1Msg then
        [⟨.write, .account s.callerAddress .balance callerBalance callerBalancePrev,
          (false : Bool)⟩]
      else []
    let effectiveTip := s.gasPrice - s.baseFee
    let gasCost := s.gas - s.gasLeft - effective_refund s.refund s.gas s.gasLeft
    let coinbaseReward := if s.isL1Msg then 0 else effectiveTip * gasCost + s.l1Fee
    match getAccount (end_tx_sdb_after_refund s callerAccount) s.coinbase with
    | (false, _) => .error (.accountNotFound s.coinbase)
    | (true, coinbaseAccount) =>
      let cbCodeHash := if coinbaseAccount.is_empty then 0 else coinbaseAccount.codeHash
      let ops2 := [⟨.read, .account s.coinbase .codeHash cbCodeHash cbCodeHash,
        (false : Bool)⟩]
      let ops3 := if !s.isL1Msg then
          transfer_to s.coinbase coinbaseAccount coinbaseReward false
        else []
      let ops4 : List LogEntry :=
        [⟨.write, .txReceipt s.txId .postStateOrStatus s.isPersistent.toNat, false⟩,
         ⟨.write, .txReceipt s.txId .logLength s.logId, false⟩]
      let ops5 := if 1 < s.txId then
          [⟨.read, .txReceipt (s.txId - 1) .cumulativeGasUsed s.cumulativeGasUsed,
            (false : Bool)⟩]
        else []
      let newCumulative := s.cumulativeGasUsed + (s.gas - s.gasLeft)
      let ops6 : List LogEntry :=
        [⟨.write, .txReceipt s.txId .cumulativeGasUsed newCumulative, false⟩]
      let ops7 := if !s.isLastTx then
          [⟨.write, .callContext (s.rwc + 1) .txId (s.txId + 1), (false : Bool)⟩]
        else []
      .ok ⟨ops0 ++ ops1 ++ ops2 ++ ops3 ++ ops4 ++ ops5 ++ ops6 ++ ops7, newCumulative⟩

/-- Net amount credited to `address` by balance WRITE operations of a
log: the sum of (value − previous value) over them. -/
def balanceWriteDelta (address : Nat) (ops : List LogEntry) : Nat :=
  (ops.filterMap (fun en =>
    match en with
    | ⟨RWDir.write, BusOp.account a AccountField.balance v vp, _⟩ =>
      if a == address then some (v - vp) else none
    | _ => none)).sum

/-- The (txId, value) pairs of cumulative-gas receipt READ entries. -/
def receiptCumulativeReads (ops : List LogEntry) : List (Nat × Nat) :=
  ops.filterMap (fun en =>
    match en with
    | ⟨RWDir.read, BusOp.txReceipt txId TxReceiptField.cumulativeGasUsed v, _⟩ =>
      some (txId, v)
    | _ => none)

/-- The (txId, value) pairs of cumulative-gas receipt WRITE entries. -/
def receiptCumulativeWrites (ops : List LogEntry) : List (Nat × Nat) :=
  ops.filterMap (fun en =>
    match en with
    | ⟨RWDir.write, BusOp.txReceipt txId TxReceiptField.cumulativeGasUsed v, _⟩ =>
      some (txId, v)
    | _ => none)

/-! ## Concrete inputs used by the witness theorems -/

/-- A non-L1 transaction ending with gas 40000 of 100000 left, refund
counter 50000, caller account 100 and coinbase 200. -/
def endTxExample : EndTxInput :=
  { txId := 2
    callId := 10
    isPersistent := true
    callerAddress := 100
    gas := 100000
    gasPrice := 7
    l1Fee := 3
    isL1Msg := false
    gasLeft := 40000
    logId := 2
    refund := 50000
    accounts := [(100, ⟨1000000, 1, 0, 0⟩), (200, ⟨500, 0, 77, 88⟩)]
    baseFee := 5
    coinbase := 200
    cumulativeGasUsed := 21000
    isLastTx := false
    rwc := 900 }

/-- An L1-message begin-transaction whose caller account does not exist
yet, under the scroll feature. -/
def beginTxL1Example : BeginTxInput :=
  { txId := 1
    isL1Msg := true
    callerAddress := 100
    accounts := []
    l1FeeBaseFee := 15
    l1FeeOverhead := 2100
    l1FeeScalar := 10
    l1FeeCommittedBaseFee := 14
    l1FeeCommittedOverhead := 2100
    l1FeeCommittedScalar := 10
    scrollFeature := true }

/-- The same begin-transaction input as a plain (non-L1) transaction. -/
def beginTxFeeExample : BeginTxInput :=
  { beginTxL1Example with isL1Msg := false }

/-! ## Theorems -/

/-- Claim C2: the effective refund computed by End-Tx equals
`min(accumulated_refund, gas_used / 5)` with `gas_used` the transaction
gas limit minus the gas left at End-Tx, and for every pair — including
`refund > gas_used / 5` and `refund = 0` — it never exceeds
`gas_used / 5`. -/
theorem c2_effective_refund_bound (refund gas gasLeft : Nat) :
    effective_refund refund gas gasLeft = min refund ((gas - gasLeft) / 5) ∧
    effective_refund refund gas gasLeft ≤ (gas - gasLeft) / 5 :=
  ⟨rfl, Nat.min_le_right _ _⟩

/-- Claim C9: `load_params` bails out without attempting
deserialization whenever the file length differs from
`4 + 2 * 2^degree * L + 2 * (2 * L)` with `L = 32` bytes per G1 point
for the Processed format and `L = 64` for the raw formats, and attempts
deserialization exactly when the length matches. -/
theorem c9_load_params_length_gate (fileSize degree : Nat)
    (serdeFmt : Option SerdeFormat) :
    (fileSize ≠ claim_expected_len degree (g1_bytes_len (serdeFmt.getD DEFAULT_SERDE_FORMAT)) →
      load_params_length_gate fileSize degree serdeFmt = LoadParamsOutcome.lengthError) ∧
    (load_params_length_gate fileSize degree serdeFmt =
        LoadParamsOutcome.deserializeAttempted (serdeFmt.getD DEFAULT_SERDE_FORMAT) ↔
      fileSize = claim_expected_len degree (g1_bytes_len (serdeFmt.getD DEFAULT_SERDE_FORMAT))) := by
  have he : expected_params_len degree (serdeFmt.getD DEFAULT_SERDE_FORMAT) =
      claim_expected_len degree (g1_bytes_len (serdeFmt.getD DEFAULT_SERDE_FORMAT)) := by
    unfold expected_params_len claim_expected_len
    ring
  constructor
  · intro hne
    unfold load_params_length_gate
    rw [he]
    exact if_pos hne
  · unfold load_params_length_gate
    rw [he]
    by_cases heq : fileSize = claim_expected_len degree
        (g1_bytes_len (serdeFmt.getD DEFAULT_SERDE_FORMAT))
    · simp [heq]
    · simp [heq]

/-- Witness for C9 at degree 2 with the Processed format: a file of the
expected 388 bytes reaches deserialization, a 387-byte file is
rejected. -/
theorem c9_load_params_length_gate_witness :
    load_params_length_gate 388 2 (some SerdeFormat.processed) =
      LoadParamsOutcome.deserializeAttempted SerdeFormat.processed ∧
    load_params_length_gate 387 2 (some SerdeFormat.processed) =
      LoadParamsOutcome.lengthError :=
  ⟨(c9_load_params_length_gate 388 2 (some SerdeFormat.processed)).2.mpr (by decide),
   (c9_load_params_length_gate 387 2 (some SerdeFormat.processed)).1 (by decide)⟩

/-- Claim C10: `gen_rng` always builds its generator from the fixed
all-zero 16-byte seed and consults no entropy, so any two calls produce
identical output streams. -/
theorem c10_gen_rng_deterministic :
    gen_rng_seed = List.replicate 16 0 ∧
    (∀ entropy : Nat → Nat, gen_rng entropy = xorshift_from_seed (List.replicate 16 0)) ∧
    (∀ entropyA entropyB : Nat → Nat, ∀ n : Nat,
      xorshift_stream (gen_rng entropyA) n = xorshift_stream (gen_rng entropyB) n) :=
  ⟨rfl, fun _ => rfl, fun _ _ _ => rfl⟩

/-- Claim C8: every PUSH-with-data opcode bypasses the static dispatch
table (which holds no entry for it beyond the Dummy catch-all) and gets
the generic zero-pop one-push handler uniformly over all 32 immediate
widths, while every other opcode's handler is the static table entry
for its identity. -/
theorem c8_push_with_data_dispatch (op : OpcodeId) :
    (op.is_push_with_data = true →
      fn_gen_associated_ops op = Handler.stackOnly 0 1 false ∧
      static_dispatch_table op = Handler.dummy) ∧
    (op.is_push_with_data = false →
      fn_gen_associated_ops op = static_dispatch_table op) := by
  cases op <;>
    first
      | exact ⟨(fun _ => ⟨rfl, rfl⟩), (fun h => nomatch h)⟩
      | exact ⟨(fun h => nomatch h), (fun _ => rfl)⟩

/-- Witness for C8: PUSH7 takes the generic zero-pop one-push handler
past the table, ADD is served from the table. -/
theorem c8_push_with_data_dispatch_witness :
    fn_gen_associated_ops OpcodeId.PUSH7 = Handler.stackOnly 0 1 false ∧
    static_dispatch_table OpcodeId.PUSH7 = Handler.dummy ∧
    fn_gen_associated_ops OpcodeId.ADD = static_dispatch_table OpcodeId.ADD :=
  ⟨((c8_push_with_data_dispatch OpcodeId.PUSH7).1 rfl).1,
   ((c8_push_with_data_dispatch OpcodeId.PUSH7).1 rfl).2,
   (c8_push_with_data_dispatch OpcodeId.ADD).2 rfl⟩

/-- Claim C1: when a classified error has no registered specialized
handler, the dispatch engine takes exactly one of two restore paths —
for a call-or-create opcode whose error is not out-of-gas-on-create it
pushes the frame parsed from the step and restores with
`need_restore = false`; otherwise it restores with
`need_restore = true` and pushes nothing — and in both paths returns
exactly one `ExecStep` tagged with the classified error. -/
theorem c1_error_fallback (g : GethStep) (e : ExecError) (base : ExecStep)
    (hnh : fn_gen_error_state_associated_ops g.op e = ErrClassification.noHandler) :
    ∃ a : FallbackAction,
      gen_associated_ops_error_path g e base = ErrorPathResult.fallback a ∧
      a.steps = [{ base with error := some e }] ∧
      ((g.op.is_call_or_create && !e.is_oog_create) = true →
        a.pushedCall = some (parse_call g) ∧ a.needRestore = false) ∧
      ((g.op.is_call_or_create && !e.is_oog_create) = false →
        a.pushedCall = none ∧ a.needRestore = true) := by
  simp only [gen_associated_ops_error_path, hnh]
  by_cases hc : (g.op.is_call_or_create && !e.is_oog_create) = true
  · rw [if_pos hc]
    exact ⟨_, rfl, rfl, (fun _ => ⟨rfl, rfl⟩),
      (fun h => absurd hc (by rw [h]; exact Bool.false_ne_true))⟩
  · rw [if_neg hc]
    exact ⟨_, rfl, rfl, (fun h => absurd h hc), (fun _ => ⟨rfl, rfl⟩)⟩

/-- Witness for C1: a CALL failing with the unhandled
out-of-gas-on-precompile error takes the push-then-restore path with
`need_restore = false` and one error-tagged step. -/
theorem c1_error_fallback_witness :
    ∃ a : FallbackAction,
      gen_associated_ops_error_path ⟨OpcodeId.CALL, 5⟩
          (ExecError.outOfGas OogError.precompile) ⟨5, 100, none⟩ =
        ErrorPathResult.fallback a ∧
      a.steps = [⟨5, 100, some (ExecError.outOfGas OogError.precompile)⟩] ∧
      a.pushedCall = some (parse_call ⟨OpcodeId.CALL, 5⟩) ∧
      a.needRestore = false := by
  obtain ⟨a, h1, h2, h3, _⟩ := c1_error_fallback ⟨OpcodeId.CALL, 5⟩
    (ExecError.outOfGas OogError.precompile) ⟨5, 100, none⟩ rfl
  obtain ⟨h4, h5⟩ := h3 rfl
  exact ⟨a, h1, h2, h4, h5⟩

/-- Claim C5 counterexample: a creation transaction targeting address 5,
whose account has nonce 1, aborts the builder — but through the
`unimplemented!` panic, not through a typed error value, contradicting
the claim's "surfaces as a typed error". -/
theorem c5_collision_counterexample :
    begin_tx_collision_check true [(5, ⟨0, 1, 0, 0⟩)] 5 =
      BeginTxOutcome.panicked (BeginTxPanic.deploymentCollision 5 ⟨0, 1, 0, 0⟩) ∧
    (begin_tx_collision_check true [(5, ⟨0, 1, 0, 0⟩)] 5).isTypedError = false := by
  decide

/-- Claim C5 (amended): for every creation transaction whose target
address carries a nonzero, non-empty code hash on an existing account or
a nonzero nonce, Begin-Tx aborts the builder — it never silently
proceeds — through a fatal `unimplemented!` panic identifying the
offending address and account (not through a typed error value). -/
theorem c5_creation_collision_aborts (isCreate : Bool)
    (accounts : List (Nat × Account)) (calleeAddress : Nat)
    (hc : isCreate = true)
    (hv : ((getAccount accounts calleeAddress).2.is_empty = false ∧
           (getAccount accounts calleeAddress).2.codeHash ≠ 0 ∧
           (getAccount accounts calleeAddress).2.codeHash ≠ EMPTY_CODE_HASH) ∨
          (getAccount accounts calleeAddress).2.nonce ≠ 0) :
    begin_tx_collision_check isCreate accounts calleeAddress =
      BeginTxOutcome.panicked
        (BeginTxPanic.deploymentCollision calleeAddress
          (getAccount accounts calleeAddress).2) := by
  subst hc
  rcases hv with ⟨he, h0, hE⟩ | hn
  · have h0b : ((getAccount accounts calleeAddress).2.codeHash == 0) = false :=
      beq_eq_false_iff_ne.mpr h0
    have hEb : ((getAccount accounts calleeAddress).2.codeHash == EMPTY_CODE_HASH) = false :=
      beq_eq_false_iff_ne.mpr hE
    simp [begin_tx_collision_check, he, h0b, hEb]
  · have hnb : ((getAccount accounts calleeAddress).2.nonce == 0) = false :=
      beq_eq_false_iff_ne.mpr hn
    simp [begin_tx_collision_check, hnb]

/-- Witness for the amended C5: a creation targeting address 9, whose
existing account carries code hash 77, aborts with the collision
panic. -/
theorem c5_creation_collision_aborts_witness :
    begin_tx_collision_check true [(9, ⟨3, 0, 77, 0⟩)] 9 =
      BeginTxOutcome.panicked (BeginTxPanic.deploymentCollision 9 ⟨3, 0, 77, 0⟩) :=
  c5_creation_collision_aborts true [(9, ⟨3, 0, 77, 0⟩)] 9 rfl (Or.inl (by decide))

/-- Helper: the log appended by one warming step is the old log plus one
reversible access-list WRITE whose `is_warm_prev` records the previous
membership. -/
theorem warm_address_snd (txId : Nat) (acc : List Nat × List LogEntry) (addr : Nat) :
    (warm_address txId acc addr).2 =
      acc.2 ++ [⟨.write, .txAccessList txId addr true (acc.1.contains addr), true⟩] := by
  unfold warm_address add_account_to_access_list
  by_cases hc : addr ∈ acc.1 <;> simp [hc]

/-- Helper: folding warming steps over any address list preserves the
all-reversible-access-write invariant of the log. -/
theorem warm_fold_all (txId : Nat) (addrs : List Nat) :
    ∀ acc : List Nat × List LogEntry, acc.2.all isReversibleAccessWrite = true →
      ((addrs.foldl (warm_address txId) acc).2.all isReversibleAccessWrite) = true := by
  induction addrs with
  | nil => exact fun _ h => h
  | cons a rest ih =>
    intro acc h
    rw [List.foldl_cons]
    apply ih
    rw [warm_address_snd, List.all_append]
    simp [h, isReversibleAccessWrite]

/-- Helper: each warming step appends exactly one log entry. -/
theorem warm_fold_length (txId : Nat) (addrs : List Nat) :
    ∀ acc : List Nat × List LogEntry,
      ((addrs.foldl (warm_address txId) acc).2.length) = acc.2.length + addrs.length := by
  induction addrs with
  | nil => intro acc; simp
  | cons a rest ih =>
    intro acc
    rw [List.foldl_cons, ih, warm_address_snd]
    simp [List.length_append]
    omega

/-- Claim C7: warming an already-warm address records
`is_warm_prev = true` and leaves membership unchanged; warming a cold
address flips membership exactly once and records
`is_warm_prev = false`; and the Begin-Tx warming of the nine precompile
addresses, sender, recipient and (post-fork) coinbase appends one
reversible access-list WRITE per address. -/
theorem c7_access_list_warming (txId : Nat) (al : List Nat) (log : List LogEntry)
    (addr : Nat) (caller callee coinbase : Nat) (shanghai : Bool) (al0 : List Nat) :
    (addr ∈ al →
      (warm_address txId (al, log) addr).1 = al ∧
      (warm_address txId (al, log) addr).2 =
        log ++ [⟨.write, .txAccessList txId addr true true, true⟩]) ∧
    (addr ∉ al →
      addr ∈ (warm_address txId (al, log) addr).1 ∧
      (∀ b, b ≠ addr →
        (b ∈ (warm_address txId (al, log) addr).1 ↔ b ∈ al)) ∧
      (warm_address txId (al, log) addr).2 =
        log ++ [⟨.write, .txAccessList txId addr true false, true⟩]) ∧
    ((begin_tx_warming txId caller callee coinbase shanghai al0).2.all
        isReversibleAccessWrite = true) ∧
    ((begin_tx_warming txId caller callee coinbase shanghai al0).2.length =
      if shanghai then 12 else 11) := by
  refine ⟨?_, ?_, ?_, ?_⟩
  · intro h
    constructor
    · simp [warm_address, add_account_to_access_list, h]
    · simp [warm_address, add_account_to_access_list, h]
  · intro h
    refine ⟨?_, ?_, ?_⟩
    · simp [warm_address, add_account_to_access_list, h]
    · intro b hb
      simp [warm_address, add_account_to_access_list, h, List.mem_cons, hb]
    · simp [warm_address, add_account_to_access_list, h]
  · exact warm_fold_all txId _ (al0, []) rfl
  · rw [begin_tx_warming, warm_fold_length]
    cases shanghai <;> simp [begin_tx_warm_addresses]

/-- Witness for C7: warming the already-warm address 7 leaves the list
unchanged, warming the cold address 3 makes it warm, and the shanghai
warming sequence appends twelve entries. -/
theorem c7_access_list_warming_witness :
    (warm_address 1 ([7], []) 7).1 = [7] ∧
    3 ∈ (warm_address 1 ([], []) 3).1 ∧
    (begin_tx_warming 1 100 200 300 true []).2.length = 12 := by
  have h := c7_access_list_warming 1 [7] [] 7 100 200 300 true []
  have h2 := c7_access_list_warming 1 [] [] 3 100 200 300 true []
  exact ⟨(h.1 (by decide)).1, (h2.2.1 (by decide)).1, h.2.2.2⟩

/-- Claim C4: Begin-Tx's first log activity is branch-exact — for a
non-L1 transaction exactly the three fee-oracle storage READs (base
fee, overhead, scalar), for an L1 message a READ of the sender's code
hash followed, only when the sender account is empty, by non-reversible
account-creation WRITEs with recorded previous value zero. -/
theorem c4_begin_tx_first_phase (s : BeginTxInput) :
    (s.isL1Msg = false →
      begin_tx_fee_phase s =
        [⟨.read, .storage l1_gas_price_oracle_ADDRESS l1_gas_price_oracle_BASE_FEE_SLOT
            s.l1FeeBaseFee s.l1FeeBaseFee s.txId s.l1FeeCommittedBaseFee, false⟩,
         ⟨.read, .storage l1_gas_price_oracle_ADDRESS l1_gas_price_oracle_OVERHEAD_SLOT
            s.l1FeeOverhead s.l1FeeOverhead s.txId s.l1FeeCommittedOverhead, false⟩,
         ⟨.read, .storage l1_gas_price_oracle_ADDRESS l1_gas_price_oracle_SCALAR_SLOT
            s.l1FeeScalar s.l1FeeScalar s.txId s.l1FeeCommittedScalar, false⟩]) ∧
    (s.isL1Msg = true →
      ∃ rest : List LogEntry,
        begin_tx_fee_phase s =
          ⟨.read, .account s.callerAddress .codeHash
              ((getAccount s.accounts s.callerAddress).2.code_hash_read)
              ((getAccount s.accounts s.callerAddress).2.code_hash_read), false⟩ :: rest ∧
        ((getAccount s.accounts s.callerAddress).2.is_empty = false → rest = []) ∧
        ((getAccount s.accounts s.callerAddress).2.is_empty = true →
          rest ≠ [] ∧ rest.all (isAccountCreationWrite s.callerAddress) = true)) := by
  constructor
  · intro h
    simp [begin_tx_fee_phase, h, gen_tx_l1_fee_ops]
  · intro h
    simp only [begin_tx_fee_phase, h, if_true]
    refine ⟨_, rfl, ?_, ?_⟩
    · intro hf
      rw [hf]
      simp
    · intro ht
      rw [ht]
      simp only [if_true]
      constructor
      · exact List.cons_ne_nil _ _
      · cases hscr : s.scrollFeature <;> simp [isAccountCreationWrite]

/-- Witness for C4: the non-L1 example produces three entries; the
L1-message example with a missing caller account produces the code-hash
read followed by nonempty account-creation writes with previous value
zero. -/
theorem c4_begin_tx_first_phase_witness :
    (begin_tx_fee_phase beginTxFeeExample).length = 3 ∧
    (∃ rest : List LogEntry,
      begin_tx_fee_phase beginTxL1Example =
        ⟨.read, .account 100 .codeHash 0 0, false⟩ :: rest ∧
      rest ≠ [] ∧ rest.all (isAccountCreationWrite 100) = true) := by
  constructor
  · rw [(c4_begin_tx_first_phase beginTxFeeExample).1 rfl]
    rfl
  · obtain ⟨rest, hphase, _, hemp⟩ := (c4_begin_tx_first_phase beginTxL1Example).2 rfl
    obtain ⟨hne, hall⟩ := hemp rfl
    exact ⟨rest, hphase, hne, hall⟩

/-- Claim C3: End-Tx computes the coinbase reward as
`(gas_price − base_fee) * gas_used + fee` for a non-privileged
transaction — `gas_used` being the gas the transaction consumed, i.e.
gas limit minus gas left minus the effective refund — and zero for a
privileged L1 message, and credits the block's fee recipient with
exactly that reward. -/
theorem c3_coinbase_reward (s : EndTxInput) (ca cb : Account)
    (h1 : getAccount s.accounts s.callerAddress = (true, ca))
    (h2 : getAccount (end_tx_sdb_after_refund s ca) s.coinbase = (true, cb))
    (_hbf : s.baseFee ≤ s.gasPrice)
    (_hgl : s.gasLeft ≤ s.gas)
    (hne : s.coinbase ≠ s.callerAddress) :
    ∃ r : EndTxResult, gen_end_tx_ops s = Except.ok r ∧
      balanceWriteDelta s.coinbase r.ops =
        (if s.isL1Msg then 0
         else (s.gasPrice - s.baseFee) *
              (s.gas - s.gasLeft - effective_refund s.refund s.gas s.gasLeft) +
              s.l1Fee) := by
  have hcb : ¬(s.callerAddress = s.coinbase) := fun hx => hne hx.symm
  simp only [gen_end_tx_ops, h1, h2]
  refine ⟨_, rfl, ?_⟩
  by_cases ht : 1 < s.txId <;> cases hlast : s.isLastTx <;> cases hl : s.isL1Msg <;>
    simp [ht, hlast, hl, hcb, balanceWriteDelta, transfer_to, List.filterMap_append,
      List.filterMap_cons, List.filterMap_nil, List.sum_cons, List.sum_nil, List.sum_append,
      Nat.add_sub_cancel_left]

/-- Witness for C3 on the concrete non-L1 example: the coinbase is
credited `(7 − 5) * (100000 − 40000 − 12000) + 3 = 96003`. -/
theorem c3_coinbase_reward_witness :
    ∃ r : EndTxResult, gen_end_tx_ops endTxExample = Except.ok r ∧
      balanceWriteDelta endTxExample.coinbase r.ops = 96003 := by
  obtain ⟨r, hr, hd⟩ := c3_coinbase_reward endTxExample ⟨1000000, 1, 0, 0⟩ ⟨500, 0, 77, 88⟩
    (by decide) (by decide) (by decide) (by decide) (by decide)
  refine ⟨r, hr, ?_⟩
  rw [hd]
  decide

/-- Claim C6: End-Tx writes exactly one cumulative-gas receipt entry,
equal to the block's running cumulative value plus this transaction's
own gas used, and reads the previous transaction's cumulative entry
exactly when this is not the first transaction of the block (the first
transaction performs no cumulative read). -/
theorem c6_receipt_chaining (s : EndTxInput) (ca cb : Account)
    (h1 : getAccount s.accounts s.callerAddress = (true, ca))
    (h2 : getAccount (end_tx_sdb_after_refund s ca) s.coinbase = (true, cb)) :
    ∃ r : EndTxResult, gen_end_tx_ops s = Except.ok r ∧
      receiptCumulativeWrites r.ops =
        [(s.txId, s.cumulativeGasUsed + (s.gas - s.gasLeft))] ∧
      receiptCumulativeReads r.ops =
        (if 1 < s.txId then [(s.txId - 1, s.cumulativeGasUsed)] else []) := by
  simp only [gen_end_tx_ops, h1, h2]
  refine ⟨_, rfl, ?_, ?_⟩ <;>
    by_cases ht : 1 < s.txId <;> cases hlast : s.isLastTx <;> cases hl : s.isL1Msg <;>
      simp [ht, hlast, hl, receiptCumulativeWrites, receiptCumulativeReads, transfer_to,
        List.filterMap_append, List.filterMap_cons, List.filterMap_nil]

/-- Witness for C6 on the concrete second-transaction example: one
cumulative write `(2, 21000 + 60000)` and one cumulative read
`(1, 21000)` of the previous transaction. -/
theorem c6_receipt_chaining_witness :
    ∃ r : EndTxResult, gen_end_tx_ops endTxExample = Except.ok r ∧
      receiptCumulativeWrites r.ops = [(2, 81000)] ∧
      receiptCumulativeReads r.ops = [(1, 21000)] := by
  obtain ⟨r, hr, hw, hrd⟩ := c6_receipt_chaining endTxExample ⟨1000000, 1, 0, 0⟩
    ⟨500, 0, 77, 88⟩ (by decide) (by decide)
  refine ⟨r, hr, ?_, ?_⟩
  · rw [hw]
    decide
  · rw [hrd]
    decide
